import Mathlib

/-!
Verification development for the nginx log watcher (src/watcher.py).

The file shallowly embeds the watcher: JSON values and the line decoder
(json.loads over one stripped line), the field extraction and coercion of
process_log_entry, the rolling status window (collections.deque with maxlen),
check_failover, check_error_rate, and the alert dispatcher send_slack_alert.

Modelling conventions:
- Python floats (timestamps, threshold, error rate) are modelled as exact
  rationals; JSON numbers are modelled as exact rationals, so the
  non-standard NaN/Infinity extension of the source JSON library is outside
  the model, as are rounding effects of binary floating point.
- time.time() is passed in explicitly as a `now` argument; the two samples
  taken while processing one entry are identified.
- An element of the alert list produced by send_slack_alert stands for one
  outbound HTTP POST to the webhook; the payload body text, field list,
  footer and timestamp are presentational and not modelled, nor is the
  delivery outcome (the source swallows non-2xx responses and transport
  exceptions without touching watcher state).
- Exceptions that escape process_log_entry (attribute access on a non-dict
  value, a string format code applied to a non-string, slicing a
  non-sliceable value) are modelled with Except.error.
-/

namespace Watcher

/-- JSON value as produced by the source's json.loads (Python ints and
floats both become exact rationals; objects keep their member order, with
lookups taking the last binding of a repeated key, as a Python dict built
from repeated keys would). -/
inductive JVal where
  | null
  | bool (b : Bool)
  | num (q : ℚ)
  | str (s : String)
  | arr (elems : List JVal)
  | obj (members : List (String × JVal))

/-- Whitespace that the JSON grammar allows between tokens. -/
def isJsonWs (c : Char) : Bool :=
  c = ' ' || c = '\t' || c = '\n' || c = '\r'

/-- Drop JSON inter-token whitespace. -/
def skipWs : List Char → List Char
  | [] => []
  | c :: cs => if isJsonWs c then skipWs cs else c :: cs

/-- Whitespace stripped by Python's str.strip (ASCII part). -/
def isPySpace (c : Char) : Bool :=
  c = ' ' || c = '\t' || c = '\n' || c = '\r' || c = '\x0b' || c = '\x0c'

/-- Python str.strip on a character list. -/
def pyStrip (cs : List Char) : List Char :=
  ((cs.dropWhile isPySpace).reverse.dropWhile isPySpace).reverse

/-- Split a leading run of decimal digits from the rest. -/
def spanDigits (cs : List Char) : List Char × List Char :=
  (cs.takeWhile Char.isDigit, cs.dropWhile Char.isDigit)

/-- Value of a digit string. -/
def natOfDigits (ds : List Char) : ℕ :=
  ds.foldl (fun n c => n * 10 + (c.toNat - 48)) 0

/-- Value of one hexadecimal digit. -/
def hexVal (c : Char) : Option ℕ :=
  if '0' ≤ c ∧ c ≤ '9' then some (c.toNat - 48)
  else if 'a' ≤ c ∧ c ≤ 'f' then some (c.toNat - 87)
  else if 'A' ≤ c ∧ c ≤ 'F' then some (c.toNat - 55)
  else none

/-- Single-character JSON string escapes. -/
def escChar (c : Char) : Option Char :=
  if c = '"' then some '"'
  else if c = '\\' then some '\\'
  else if c = '/' then some '/'
  else if c = 'b' then some (Char.ofNat 8)
  else if c = 'f' then some (Char.ofNat 12)
  else if c = 'n' then some '\n'
  else if c = 'r' then some '\r'
  else if c = 't' then some '\t'
  else none

/-- Body of a JSON string after the opening quote: characters until the
closing quote, with escapes decoded, raw control characters rejected. -/
def parseStringChars : List Char → Option (List Char × List Char)
  | [] => none
  | c :: rest =>
    if c = '"' then some ([], rest)
    else if c = '\\' then
      match rest with
      | [] => none
      | e :: rest2 =>
        if e = 'u' then
          match rest2 with
          | h1 :: h2 :: h3 :: h4 :: rest3 =>
            match hexVal h1, hexVal h2, hexVal h3, hexVal h4 with
            | some a, some b, some c2, some d =>
              (parseStringChars rest3).map
                (fun p => (Char.ofNat (((a * 16 + b) * 16 + c2) * 16 + d) :: p.1, p.2))
            | _, _, _, _ => none
          | _ => none
        else
          match escChar e with
          | some ec => (parseStringChars rest2).map (fun p => (ec :: p.1, p.2))
          | none => none
    else if c.toNat < 32 then none
    else (parseStringChars rest).map (fun p => (c :: p.1, p.2))

/-- Exponent part of a JSON number, after the e/E marker. -/
def parseExp (cs : List Char) : Option (ℤ × List Char) :=
  let (sgn, cs1) :=
    match cs with
    | '+' :: r => ((1 : ℤ), r)
    | '-' :: r => ((-1 : ℤ), r)
    | _ => ((1 : ℤ), cs)
  let (eds, r) := spanDigits cs1
  if eds.isEmpty then none else some (sgn * (natOfDigits eds : ℤ), r)

/-- Exact rational value of a decimal mantissa with fracLen digits after the
point and a decimal exponent (integer literals short-circuit the field
arithmetic). -/
def jnumVal (mant : ℤ) (fracLen : ℕ) (e : ℤ) : ℚ :=
  if fracLen = 0 ∧ e = 0 then (mant : ℚ)
  else (mant : ℚ) / ((10 : ℚ) ^ fracLen) * ((10 : ℚ) ^ e)

/-- JSON number: -?(0|[1-9][0-9]*)(.digits)?((e|E)(+|-)?digits)?, valued
exactly as a rational. -/
def parseNumber (cs : List Char) : Option (ℚ × List Char) :=
  let (neg, cs1) :=
    match cs with
    | '-' :: r => (true, r)
    | _ => (false, cs)
  match cs1 with
  | [] => none
  | c0 :: _ =>
    if c0.isDigit then
      let (ds, r1) := spanDigits cs1
      if 1 < ds.length ∧ ds.head? = some '0' then none
      else
        let fracRes : Option (List Char × List Char) :=
          match r1 with
          | '.' :: r =>
            let (fs, r2) := spanDigits r
            if fs.isEmpty then none else some (fs, r2)
          | _ => some ([], r1)
        match fracRes with
        | none => none
        | some (fs, r2) =>
          let expRes : Option (ℤ × List Char) :=
            match r2 with
            | 'e' :: r => parseExp r
            | 'E' :: r => parseExp r
            | _ => some ((0 : ℤ), r2)
          match expRes with
          | none => none
          | some (e, r3) =>
            let mag : ℤ := (natOfDigits (ds ++ fs) : ℤ)
            let mant : ℤ := if neg then -mag else mag
            some (jnumVal mant fs.length e, r3)
    else none

mutual

/-- One JSON value, leading whitespace allowed; fuel bounds recursion depth
(jsonParse supplies more fuel than any input of its length can consume). -/
def parseValue : ℕ → List Char → Option (JVal × List Char)
  | 0, _ => none
  | f + 1, cs =>
    match skipWs cs with
    | 'n' :: 'u' :: 'l' :: 'l' :: r => some (.null, r)
    | 't' :: 'r' :: 'u' :: 'e' :: r => some (.bool true, r)
    | 'f' :: 'a' :: 'l' :: 's' :: 'e' :: r => some (.bool false, r)
    | '"' :: r => (parseStringChars r).map (fun p => (.str (String.mk p.1), p.2))
    | '[' :: r =>
      match skipWs r with
      | ']' :: r2 => some (.arr [], r2)
      | r2 => (parseArrayItems f r2).map (fun p => (.arr p.1, p.2))
    | '{' :: r =>
      match skipWs r with
      | '}' :: r2 => some (.obj [], r2)
      | r2 => (parseObjPairs f r2).map (fun p => (.obj p.1, p.2))
    | other => (parseNumber other).map (fun p => (.num p.1, p.2))

/-- One or more comma-separated array items followed by the closing bracket. -/
def parseArrayItems : ℕ → List Char → Option (List JVal × List Char)
  | 0, _ => none
  | f + 1, cs =>
    match parseValue f cs with
    | none => none
    | some (v, r1) =>
      match skipWs r1 with
      | ',' :: r2 => (parseArrayItems f (skipWs r2)).map (fun p => (v :: p.1, p.2))
      | ']' :: r2 => some ([v], r2)
      | _ => none

/-- One or more comma-separated key-value members followed by the closing
brace. -/
def parseObjPairs : ℕ → List Char → Option (List (String × JVal) × List Char)
  | 0, _ => none
  | f + 1, cs =>
    match skipWs cs with
    | '"' :: r =>
      match parseStringChars r with
      | none => none
      | some (kcs, r1) =>
        match skipWs r1 with
        | ':' :: r2 =>
          match parseValue f (skipWs r2) with
          | none => none
          | some (v, r3) =>
            match skipWs r3 with
            | ',' :: r4 =>
              (parseObjPairs f (skipWs r4)).map (fun p => ((String.mk kcs, v) :: p.1, p.2))
            | '}' :: r4 => some ([(String.mk kcs, v)], r4)
            | _ => none
        | _ => none
    | _ => none

end

/-- json.loads: the whole input must be one JSON value surrounded only by
whitespace. -/
def jsonParse (s : String) : Option JVal :=
  let cs := s.data
  match parseValue (2 * cs.length + 8) cs with
  | some (v, rest) => if (skipWs rest).isEmpty then some v else none
  | none => none

/-- LogWatcher.parse_log_line: strip the line and attempt json.loads,
returning none on a decode failure. -/
def parse_log_line (line : String) : Option JVal :=
  jsonParse (String.mk (pyStrip line.data))

/-- Python truthiness of a decoded JSON value, as tested by `if entry:` in
tail_log. -/
def truthy : JVal → Bool
  | .null => false
  | .bool b => b
  | .num q => decide (q ≠ 0)
  | .str s => !s.isEmpty
  | .arr xs => !xs.isEmpty
  | .obj kvs => !kvs.isEmpty

/-- dict.get(key, default) on the decoded members of a JSON object; a
repeated key keeps its last binding, as in a Python dict literal. -/
def objGet (kvs : List (String × JVal)) (k : String) (d : JVal) : JVal :=
  (kvs.foldl (fun acc kv => if kv.1 = k then some kv.2 else acc) none).getD d

/-- The test `pool in ['unknown', '-', '', None]` of process_log_entry
(Python equality across types: only these exact values match). -/
def poolIgnored : JVal → Bool
  | .str s => s == "unknown" || s == "-" || s == ""
  | .null => true
  | _ => false

/-- Values accepted by the %s-style string format codes used in the log-line
print (format(x, "5s") succeeds exactly on strings). -/
def isStr : JVal → Bool
  | .str _ => true
  | _ => false

/-- Values on which the slice request[:50] succeeds (strings and arrays). -/
def sliceable : JVal → Bool
  | .str _ => true
  | .arr _ => true
  | _ => false

/-- Python int(s) on a string: optional surrounding whitespace, optional
sign, then decimal digits (digit-group underscores are not modelled);
anything else raises ValueError, which the source turns into the default. -/
def pyIntOfString (s : String) : Option ℤ :=
  let cs := pyStrip s.data
  let (sgn, cs1) :=
    match cs with
    | '-' :: r => ((-1 : ℤ), r)
    | '+' :: r => ((1 : ℤ), r)
    | _ => ((1 : ℤ), cs)
  if cs1.isEmpty then none
  else if cs1.all Char.isDigit then some (sgn * (natOfDigits cs1 : ℤ))
  else none

/-- The try/int(status) coercion of process_log_entry: numbers truncate
toward zero, booleans become 0/1, parseable strings parse, and every
ValueError/TypeError case falls back to 0. -/
def coerceStatus : JVal → ℤ
  | .num q => q.num.tdiv (q.den : ℤ)
  | .str s => (pyIntOfString s).getD 0
  | .bool b => if b then 1 else 0
  | _ => 0

/-- One append to collections.deque(maxlen := cap): the new element goes to
the rear and, past capacity, the front element is evicted. -/
def dequeAppend (cap : ℕ) (w : List ℤ) (x : ℤ) : List ℤ :=
  (w ++ [x]).drop (w.length + 1 - cap)

/-- The rolling window that results from recording a whole list of statuses,
oldest first, into an initially empty deque. -/
def buildWindow (cap : ℕ) (xs : List ℤ) : List ℤ :=
  xs.foldl (dequeAppend cap) []

/-- Configuration drawn from the environment at startup (webhook URL, log
path and backlog flag drive only I/O outside the model). -/
structure Config where
  error_threshold : ℚ
  window_size : ℕ
  cooldown : ℚ
  maintenance_mode : Bool
deriving DecidableEq

/-- Mutable watcher state: last observed pool, rolling status window, and
the two per-kind alert cooldown timestamps (0 at startup). -/
structure State where
  last_pool : Option String
  request_window : List ℤ
  last_failover_alert : ℚ
  last_error_alert : ℚ
deriving DecidableEq

/-- One Slack payload; body text, field list, footer and unix timestamp are
presentational and omitted. -/
structure SlackAlert where
  title : String
  color : String
deriving DecidableEq

/-- Exceptions that can escape process_log_entry: attribute access on a
non-dict decoded value, a string format code applied to a non-string, or
slicing an unsliceable request value. -/
inductive PyError where
  | attributeError
  | formatCodeError
  | sliceTypeError
deriving DecidableEq

/-- send_slack_alert: under maintenance mode nothing leaves the process;
otherwise exactly one HTTP POST of the payload is attempted (its outcome
never affects watcher state). The returned list holds the outbound POSTs. -/
def send_slack_alert (cfg : Config) (a : SlackAlert) : List SlackAlert :=
  if cfg.maintenance_mode then [] else [a]

/-- Payload identity of the failover alert. -/
def failover_alert_payload : SlackAlert :=
  { title := "Failover Detected", color := "warning" }

/-- Payload identity of the high-error-rate alert. -/
def error_rate_alert_payload : SlackAlert :=
  { title := "High Error Rate Detected", color := "danger" }

/-- check_failover: first valid observation only records the pool; a changed
pool alerts when the cooldown since the last failover alert has elapsed,
and always updates last_pool; an unchanged pool is a no-op. -/
def check_failover (cfg : Config) (s : State) (pool : String) (now : ℚ) :
    State × List SlackAlert :=
  match s.last_pool with
  | none => ({ s with last_pool := some pool }, [])
  | some lp =>
    if pool ≠ lp then
      if now - s.last_failover_alert > cfg.cooldown then
        ({ s with last_pool := some pool, last_failover_alert := now },
          send_slack_alert cfg failover_alert_payload)
      else
        ({ s with last_pool := some pool }, [])
    else
      (s, [])

/-- check_error_rate: below 10 recorded statuses nothing happens; otherwise
the rate (error_count / total) * 100 is compared strictly against the
threshold and the alert is gated by the error-alert cooldown. -/
def check_error_rate (cfg : Config) (s : State) (now : ℚ) :
    State × List SlackAlert :=
  if s.request_window.length < 10 then (s, [])
  else
    let error_count := (s.request_window.filter fun st => decide (500 ≤ st)).length
    let total := s.request_window.length
    let error_rate : ℚ := ((error_count : ℚ) / (total : ℚ)) * 100
    if error_rate > cfg.error_threshold then
      if now - s.last_error_alert > cfg.cooldown then
        ({ s with last_error_alert := now },
          send_slack_alert cfg error_rate_alert_payload)
      else (s, [])
    else (s, [])

/-- process_log_entry: extract fields with defaults, drop untracked pools,
coerce status, print the log line (where a non-string pool or
upstream_status hits a bad format code and a non-sliceable request fails to
slice, in that evaluation order), then record the status and run the
failover and error-rate checks. -/
def process_log_entry (cfg : Config) (s : State) (entry : JVal) (now : ℚ) :
    Except PyError (State × List SlackAlert) :=
  match entry with
  | .obj kvs =>
    let pool := objGet kvs "pool" (.str "unknown")
    let statusRaw := objGet kvs "status" (.num 0)
    let upstream := objGet kvs "upstream_status" (.str "-")
    let request := objGet kvs "request" (.str "-")
    if poolIgnored pool then .ok (s, [])
    else
      let status := coerceStatus statusRaw
      match pool with
      | .str poolStr =>
        if isStr upstream then
          if sliceable request then
            let s1 := { s with
              request_window := dequeAppend cfg.window_size s.request_window status }
            let r1 := check_failover cfg s1 poolStr now
            let r2 := check_error_rate cfg r1.1 now
            .ok (r2.1, r1.2 ++ r2.2)
          else .error .sliceTypeError
        else .error .formatCodeError
      | _ => .error .formatCodeError
  | _ => .error .attributeError

/-- One iteration of the tail_log follow loop on a line that was read:
parse it, skip it when decoding fails or the decoded value is falsy, and
otherwise hand it to process_log_entry. -/
def process_line (cfg : Config) (s : State) (line : String) (now : ℚ) :
    Except PyError (State × List SlackAlert) :=
  match parse_log_line line with
  | none => .ok (s, [])
  | some entry =>
    if truthy entry then process_log_entry cfg s entry now else .ok (s, [])

/-- The follow loop over a finite list of (line, read-time) pairs: an
escaping exception aborts the loop (the source exits non-zero), otherwise
outbound POSTs accumulate across iterations. -/
def process_lines (cfg : Config) :
    State → List (String × ℚ) → Except PyError State × List SlackAlert
  | s, [] => (.ok s, [])
  | s, (line, t) :: rest =>
    match process_line cfg s line t with
    | .error e => (.error e, [])
    | .ok (s1, out) =>
      let r := process_lines cfg s1 rest
      (r.1, out ++ r.2)

/-- Outbound POSTs of one entry-processing result (none when it raised). -/
def outOf (r : Except PyError (State × List SlackAlert)) : List SlackAlert :=
  match r with
  | .ok (_, out) => out
  | .error _ => []

/-- Default-flavoured configuration used by concrete witnesses: threshold
2.0, window 200, cooldown 300, maintenance off. -/
def cfg0 : Config :=
  { error_threshold := 2, window_size := 200, cooldown := 300,
    maintenance_mode := false }

/-- cfg0 with maintenance mode enabled. -/
def cfgM : Config :=
  { cfg0 with maintenance_mode := true }

/-- Boot state of the watcher. -/
def state0 : State :=
  { last_pool := none, request_window := [], last_failover_alert := 0,
    last_error_alert := 0 }

/-- Boot state after an initial observation of pool "blue". -/
def stateB : State :=
  { state0 with last_pool := some "blue" }

/-- State with ten recorded statuses of which three are 5xx. -/
def stateW : State :=
  { stateB with
    request_window := [200, 200, 200, 200, 200, 200, 200, 503, 502, 500] }

/-- Lines that would alert when maintenance mode is off: a failover from
blue to green followed by ten 5xx responses. -/
def linesM : List (String × ℚ) :=
  [("\x7b\"pool\": \"blue\", \"status\": 200\x7d", 1000),
   ("\x7b\"pool\": \"green\", \"status\": 500\x7d", 1001),
   ("\x7b\"pool\": \"green\", \"status\": 500\x7d", 1002),
   ("\x7b\"pool\": \"green\", \"status\": 500\x7d", 1003),
   ("\x7b\"pool\": \"green\", \"status\": 500\x7d", 1004),
   ("\x7b\"pool\": \"green\", \"status\": 500\x7d", 1005),
   ("\x7b\"pool\": \"green\", \"status\": 500\x7d", 1006),
   ("\x7b\"pool\": \"green\", \"status\": 500\x7d", 1007),
   ("\x7b\"pool\": \"green\", \"status\": 500\x7d", 1008),
   ("\x7b\"pool\": \"green\", \"status\": 500\x7d", 1009),
   ("\x7b\"pool\": \"green\", \"status\": 500\x7d", 1010)]

theorem dequeAppend_length_le (cap : ℕ) (w : List ℤ) (x : ℤ) :
    (dequeAppend cap w x).length ≤ cap := by
  simp only [dequeAppend, List.length_drop, List.length_append, List.length_cons,
    List.length_nil]
  omega

theorem foldl_dequeAppend (cap : ℕ) (xs : List ℤ) :
    ∀ w : List ℤ, w.length ≤ cap →
      List.foldl (dequeAppend cap) w xs = (w ++ xs).drop (w.length + xs.length - cap) := by
  induction xs with
  | nil =>
    intro w hw
    simp [Nat.sub_eq_zero_of_le hw]
  | cons x xs ih =>
    intro w hw
    have hlen : (dequeAppend cap w x).length ≤ cap := dequeAppend_length_le cap w x
    rw [List.foldl_cons, ih _ hlen]
    have hle : w.length + 1 - cap ≤ (w ++ [x]).length := by
      simp only [List.length_append, List.length_cons, List.length_nil]
      omega
    have hd : dequeAppend cap w x ++ xs = ((w ++ [x]) ++ xs).drop (w.length + 1 - cap) := by
      rw [dequeAppend, List.drop_append_of_le_length hle]
    rw [hd, List.drop_drop]
    have hassoc : (w ++ [x]) ++ xs = w ++ x :: xs := by simp
    rw [hassoc]
    have hL : (dequeAppend cap w x).length = w.length + 1 - (w.length + 1 - cap) := by
      simp only [dequeAppend, List.length_drop, List.length_append, List.length_cons,
        List.length_nil]
    congr 1
    rw [hL]
    simp only [List.length_cons]
    omega

theorem buildWindow_eq (cap : ℕ) (xs : List ℤ) :
    buildWindow cap xs = xs.drop (xs.length - cap) := by
  have h := foldl_dequeAppend cap xs [] (by simp)
  simpa [buildWindow] using h

/-- C2: the rolling window never exceeds its configured capacity; appending
into a full window evicts the oldest element, so a window built from any
insertion sequence equals the suffix of the last `capacity` insertions in
arrival order, and after capacity + 1 insertions the first insertion is
evicted (absent whenever its status value does not recur later). -/
theorem window_capacity_fifo (cap : ℕ) (xs : List ℤ) :
    (buildWindow cap xs).length ≤ cap ∧
    buildWindow cap xs = xs.drop (xs.length - cap) ∧
    (xs.length = cap + 1 →
      buildWindow cap xs = xs.drop 1 ∧
      buildWindow cap xs = buildWindow cap (xs.drop 1) ∧
      ∀ y : ℤ, xs.head? = some y → y ∉ xs.drop 1 → y ∉ buildWindow cap xs) := by
  have hb := buildWindow_eq cap xs
  refine ⟨?_, hb, ?_⟩
  · rw [hb]
    simp only [List.length_drop]
    omega
  · intro hlen
    have h1 : buildWindow cap xs = xs.drop 1 := by
      rw [hb, hlen]
      congr 1
      omega
    refine ⟨h1, ?_, ?_⟩
    · have hlen1 : (xs.drop 1).length = cap := by
        simp only [List.length_drop, hlen]
        omega
      rw [buildWindow_eq cap (xs.drop 1), h1, hlen1]
      simp
    · intro y _ hnot
      rw [h1]
      exact hnot

/-- Witness for C2 at capacity 2 and insertion sequence [1, 2, 3]. -/
theorem window_capacity_fifo_witness :
    (buildWindow 2 [1, 2, 3]).length ≤ 2 ∧ buildWindow 2 [1, 2, 3] = [2, 3] ∧
      (1 : ℤ) ∉ buildWindow 2 [1, 2, 3] := by
  obtain ⟨h1, h2, h3⟩ := window_capacity_fifo 2 [1, 2, 3]
  obtain ⟨h4, _, h6⟩ := h3 (by decide)
  exact ⟨h1, h4.trans rfl, h6 1 rfl (by decide)⟩

theorem check_failover_first (cfg : Config) (s : State) (pool : String) (now : ℚ)
    (h : s.last_pool = none) :
    check_failover cfg s pool now = ({ s with last_pool := some pool }, []) := by
  simp only [check_failover, h]

theorem check_failover_fire (cfg : Config) (s : State) (pool : String) (now : ℚ)
    (lp : String) (h : s.last_pool = some lp) (hne : pool ≠ lp)
    (hcd : now - s.last_failover_alert > cfg.cooldown) :
    check_failover cfg s pool now =
      ({ s with last_pool := some pool, last_failover_alert := now },
        send_slack_alert cfg failover_alert_payload) := by
  simp only [check_failover, h]
  rw [if_pos hne, if_pos hcd]

theorem check_failover_hold (cfg : Config) (s : State) (pool : String) (now : ℚ)
    (lp : String) (h : s.last_pool = some lp) (hne : pool ≠ lp)
    (hcd : ¬ now - s.last_failover_alert > cfg.cooldown) :
    check_failover cfg s pool now = ({ s with last_pool := some pool }, []) := by
  simp only [check_failover, h]
  rw [if_pos hne, if_neg hcd]

theorem check_error_rate_small (cfg : Config) (s : State) (now : ℚ)
    (h : s.request_window.length < 10) :
    check_error_rate cfg s now = (s, []) := by
  simp only [check_error_rate]
  rw [if_pos h]

theorem check_error_rate_fire (cfg : Config) (s : State) (now : ℚ)
    (h10 : ¬ s.request_window.length < 10)
    (hr : ((s.request_window.filter fun st => decide (500 ≤ st)).length : ℚ) /
        (s.request_window.length : ℚ) * 100 > cfg.error_threshold)
    (hcd : now - s.last_error_alert > cfg.cooldown) :
    check_error_rate cfg s now =
      ({ s with last_error_alert := now },
        send_slack_alert cfg error_rate_alert_payload) := by
  simp only [check_error_rate]
  rw [if_neg h10, if_pos hr, if_pos hcd]

theorem check_error_rate_hold_cd (cfg : Config) (s : State) (now : ℚ)
    (h10 : ¬ s.request_window.length < 10)
    (hr : ((s.request_window.filter fun st => decide (500 ≤ st)).length : ℚ) /
        (s.request_window.length : ℚ) * 100 > cfg.error_threshold)
    (hcd : ¬ now - s.last_error_alert > cfg.cooldown) :
    check_error_rate cfg s now = (s, []) := by
  simp only [check_error_rate]
  rw [if_neg h10, if_pos hr, if_neg hcd]

theorem check_error_rate_hold_rate (cfg : Config) (s : State) (now : ℚ)
    (h10 : ¬ s.request_window.length < 10)
    (hr : ¬ ((s.request_window.filter fun st => decide (500 ≤ st)).length : ℚ) /
        (s.request_window.length : ℚ) * 100 > cfg.error_threshold) :
    check_error_rate cfg s now = (s, []) := by
  simp only [check_error_rate]
  rw [if_neg h10, if_neg hr]

/-- C1: with fewer than ten recorded statuses check_error_rate does nothing,
whatever the statuses are; from ten statuses on, the error rate is
100 * count(status ≥ 500) / length and an outbound alert is dispatched
exactly when that rate strictly exceeds the configured threshold (equality
does not fire) and the error-alert cooldown has elapsed. -/
theorem error_rate_cold_start_strict (cfg : Config) (s : State) (now : ℚ)
    (hm : cfg.maintenance_mode = false) :
    (s.request_window.length < 10 → check_error_rate cfg s now = (s, [])) ∧
    (10 ≤ s.request_window.length →
      ((check_error_rate cfg s now).2 ≠ [] ↔
        100 * ((s.request_window.filter fun st => decide (500 ≤ st)).length : ℚ) /
            (s.request_window.length : ℚ) > cfg.error_threshold ∧
          now - s.last_error_alert > cfg.cooldown)) := by
  constructor
  · intro h
    exact check_error_rate_small cfg s now h
  · intro h10
    have h10' : ¬ s.request_window.length < 10 := not_lt.mpr h10
    have hfor : 100 * ((s.request_window.filter fun st => decide (500 ≤ st)).length : ℚ) /
        (s.request_window.length : ℚ) =
        ((s.request_window.filter fun st => decide (500 ≤ st)).length : ℚ) /
        (s.request_window.length : ℚ) * 100 := by
      ring
    rw [hfor]
    by_cases hr : ((s.request_window.filter fun st => decide (500 ≤ st)).length : ℚ) /
        (s.request_window.length : ℚ) * 100 > cfg.error_threshold
    · by_cases hcd : now - s.last_error_alert > cfg.cooldown
      · rw [check_error_rate_fire cfg s now h10' hr hcd]
        simp [send_slack_alert, hm, hr, hcd]
      · rw [check_error_rate_hold_cd cfg s now h10' hr hcd]
        simp [hcd]
    · rw [check_error_rate_hold_rate cfg s now h10' hr]
      simp [hr]

/-- Witness for C1: ten recorded statuses of which three are 5xx, threshold
2 percent, cooldown elapsed, so the alert fires. -/
theorem error_rate_cold_start_strict_witness :
    10 ≤ stateW.request_window.length ∧ (check_error_rate cfg0 stateW 1000).2 ≠ [] := by
  have h := (error_rate_cold_start_strict cfg0 stateW 1000 rfl).2 (by decide)
  refine ⟨by decide, h.mpr ⟨?_, ?_⟩⟩
  · have hc : (stateW.request_window.filter fun st => decide (500 ≤ st)).length = 3 := rfl
    have hl : stateW.request_window.length = 10 := rfl
    rw [hc, hl]
    norm_num [cfg0]
  · have he : stateW.last_error_alert = 0 := rfl
    rw [he]
    norm_num [cfg0]

/-- C4: the first valid pool observation only records the boot-time
baseline: last_pool is set, no alert is dispatched, and the failover
cooldown timestamp is unchanged. -/
theorem failover_first_observation (cfg : Config) (s : State) (pool : String) (now : ℚ)
    (h : s.last_pool = none) :
    check_failover cfg s pool now = ({ s with last_pool := some pool }, []) ∧
    (check_failover cfg s pool now).1.last_failover_alert = s.last_failover_alert ∧
    (check_failover cfg s pool now).2 = [] := by
  have e := check_failover_first cfg s pool now h
  exact ⟨e, by rw [e], by rw [e]⟩

/-- Witness for C4 at the boot state and pool "green". -/
theorem failover_first_observation_witness :
    check_failover cfg0 state0 "green" 5 = ({ state0 with last_pool := some "green" }, []) ∧
    (check_failover cfg0 state0 "green" 5).1.last_failover_alert = state0.last_failover_alert ∧
    (check_failover cfg0 state0 "green" 5).2 = [] :=
  failover_first_observation cfg0 state0 "green" 5 rfl

/-- C3: two pool changes within one cooldown window dispatch exactly one
failover alert; a third change after the cooldown measured from the first
alert dispatches a second; and last_pool is updated on every change, so the
suppressed second change still rebases the comparison pool. -/
theorem failover_cooldown_burst (cfg : Config) (s0 : State) (p0 p1 p2 p3 : String)
    (t1 t2 t3 : ℚ)
    (hm : cfg.maintenance_mode = false)
    (hp0 : s0.last_pool = some p0)
    (h1 : p1 ≠ p0) (h2 : p2 ≠ p1) (h3 : p3 ≠ p2)
    (hc1 : t1 - s0.last_failover_alert > cfg.cooldown)
    (hc2 : t2 - t1 ≤ cfg.cooldown)
    (hc3 : t3 - t1 > cfg.cooldown) :
    (check_failover cfg s0 p1 t1).2.length = 1 ∧
    (check_failover cfg s0 p1 t1).1.last_pool = some p1 ∧
    (check_failover cfg s0 p1 t1).1.last_failover_alert = t1 ∧
    (check_failover cfg (check_failover cfg s0 p1 t1).1 p2 t2).2 = [] ∧
    (check_failover cfg (check_failover cfg s0 p1 t1).1 p2 t2).1.last_pool = some p2 ∧
    (check_failover cfg (check_failover cfg s0 p1 t1).1 p2 t2).1.last_failover_alert = t1 ∧
    (check_failover cfg
      (check_failover cfg (check_failover cfg s0 p1 t1).1 p2 t2).1 p3 t3).2.length = 1 ∧
    (check_failover cfg
      (check_failover cfg (check_failover cfg s0 p1 t1).1 p2 t2).1 p3 t3).1.last_pool =
      some p3 := by
  have e1 : check_failover cfg s0 p1 t1 =
      ({ s0 with last_pool := some p1, last_failover_alert := t1 },
        [failover_alert_payload]) := by
    rw [check_failover_fire cfg s0 p1 t1 p0 hp0 h1 hc1]
    simp [send_slack_alert, hm]
  have e2 : check_failover cfg
      ({ s0 with last_pool := some p1, last_failover_alert := t1 } : State) p2 t2 =
      ({ s0 with last_pool := some p2, last_failover_alert := t1 }, []) := by
    rw [check_failover_hold cfg _ p2 t2 p1 rfl h2 (not_lt.mpr hc2)]
  have e3 : check_failover cfg
      ({ s0 with last_pool := some p2, last_failover_alert := t1 } : State) p3 t3 =
      ({ s0 with last_pool := some p3, last_failover_alert := t3 },
        [failover_alert_payload]) := by
    rw [check_failover_fire cfg _ p3 t3 p2 rfl h3 hc3]
    simp [send_slack_alert, hm]
  simp [e1, e2, e3]

/-- Witness for C3: blue to green at 1000, back to blue at 1100 (inside the
300-second cooldown), green again at 1400 (outside it). -/
theorem failover_cooldown_burst_witness :
    (check_failover cfg0 stateB "green" 1000).2.length = 1 ∧
    (check_failover cfg0 (check_failover cfg0 stateB "green" 1000).1 "blue" 1100).2 = [] ∧
    (check_failover cfg0
      (check_failover cfg0 (check_failover cfg0 stateB "green" 1000).1 "blue" 1100).1
      "green" 1400).2.length = 1 := by
  obtain ⟨a1, _, _, a4, _, _, a7, _⟩ :=
    failover_cooldown_burst cfg0 stateB "blue" "green" "blue" "green" 1000 1100 1400
      rfl rfl (by decide) (by decide) (by decide)
      (by norm_num [stateB, state0, cfg0])
      (by norm_num [cfg0])
      (by norm_num [cfg0])
  exact ⟨a1, a4, a7⟩

theorem send_slack_alert_maintenance (cfg : Config) (a : SlackAlert)
    (hm : cfg.maintenance_mode = true) : send_slack_alert cfg a = [] := by
  simp [send_slack_alert, hm]

theorem check_failover_out_maintenance (cfg : Config) (s : State) (pool : String)
    (now : ℚ) (hm : cfg.maintenance_mode = true) :
    (check_failover cfg s pool now).2 = [] := by
  cases h : s.last_pool with
  | none => simp [check_failover, h]
  | some lp =>
    simp only [check_failover, h]
    split_ifs <;> simp [send_slack_alert, hm]

theorem check_error_rate_out_maintenance (cfg : Config) (s : State) (now : ℚ)
    (hm : cfg.maintenance_mode = true) :
    (check_error_rate cfg s now).2 = [] := by
  simp only [check_error_rate]
  split_ifs <;> simp [send_slack_alert, hm]

theorem process_log_entry_out_maintenance (cfg : Config) (s : State) (entry : JVal)
    (now : ℚ) (hm : cfg.maintenance_mode = true) :
    outOf (process_log_entry cfg s entry now) = [] := by
  cases entry with
  | null => rfl
  | bool b => rfl
  | num q => rfl
  | str s2 => rfl
  | arr xs => rfl
  | obj kvs =>
    simp only [process_log_entry]
    split
    · rfl
    · split <;> try rfl
      split <;> try rfl
      split <;> try rfl
      simp [outOf, check_failover_out_maintenance cfg _ _ _ hm,
        check_error_rate_out_maintenance cfg _ _ hm]

theorem process_line_out_maintenance (cfg : Config) (s : State) (line : String)
    (now : ℚ) (hm : cfg.maintenance_mode = true) :
    outOf (process_line cfg s line now) = [] := by
  simp only [process_line]
  split
  · rfl
  · split
    · exact process_log_entry_out_maintenance cfg s _ now hm
    · rfl

/-- C5: with maintenance mode enabled, processing any finite sequence of
lines performs zero outbound POSTs, whatever alert conditions the entries
trigger; suppression only prints locally and is not an error. -/
theorem maintenance_suppresses_outbound (cfg : Config) (s : State)
    (lines : List (String × ℚ)) (hm : cfg.maintenance_mode = true) :
    (process_lines cfg s lines).2 = [] := by
  induction lines generalizing s with
  | nil => rfl
  | cons p rest ih =>
    obtain ⟨line, t⟩ := p
    simp only [process_lines]
    cases hr : process_line cfg s line t with
    | error e => rfl
    | ok pr =>
      obtain ⟨s1, out⟩ := pr
      have hout : out = [] := by
        have h := process_line_out_maintenance cfg s line t hm
        rw [hr] at h
        simpa [outOf] using h
      simp [hout, ih]

/-- Witness for C5: a failover from blue to green followed by a burst of
5xx responses, all under maintenance mode. -/
theorem maintenance_suppresses_outbound_witness :
    (process_lines cfgM state0 linesM).2 = [] :=
  maintenance_suppresses_outbound cfgM state0 linesM rfl

/-- C10: under maintenance mode a firing failover or error-rate condition
still advances its cooldown timestamp to now although no POST leaves the
process, and therefore a pool change within one cooldown of the suppressed
alert is still suppressed after maintenance mode is switched off. -/
theorem maintenance_cooldown_advance (cfg cfg2 : Config) (s : State)
    (lp pool pool2 : String) (now t2 : ℚ)
    (hm : cfg.maintenance_mode = true)
    (hp : s.last_pool = some lp) (hne : pool ≠ lp)
    (hcf : now - s.last_failover_alert > cfg.cooldown)
    (h10 : ¬ s.request_window.length < 10)
    (hrate : ((s.request_window.filter fun st => decide (500 ≤ st)).length : ℚ) /
        (s.request_window.length : ℚ) * 100 > cfg.error_threshold)
    (hce : now - s.last_error_alert > cfg.cooldown)
    (hcool2 : cfg2.cooldown = cfg.cooldown)
    (hne2 : pool2 ≠ pool) (ht2 : t2 - now ≤ cfg.cooldown) :
    check_failover cfg s pool now =
      ({ s with last_pool := some pool, last_failover_alert := now }, []) ∧
    check_error_rate cfg s now = ({ s with last_error_alert := now }, []) ∧
    (check_failover cfg2
      ({ s with last_pool := some pool, last_failover_alert := now }) pool2 t2).2 = [] := by
  refine ⟨?_, ?_, ?_⟩
  · rw [check_failover_fire cfg s pool now lp hp hne hcf]
    simp [send_slack_alert, hm]
  · rw [check_error_rate_fire cfg s now h10 hrate hce]
    simp [send_slack_alert, hm]
  · rw [check_failover_hold cfg2 _ pool2 t2 pool rfl hne2
      (by rw [hcool2]; exact not_lt.mpr ht2)]

/-- Witness for C10: suppressed failover and error-rate alerts at time 1000
under maintenance, then a suppressed-by-cooldown change at 1100 with
maintenance off. -/
theorem maintenance_cooldown_advance_witness :
    check_failover cfgM stateW "green" 1000 =
      ({ stateW with last_pool := some "green", last_failover_alert := 1000 }, []) ∧
    check_error_rate cfgM stateW 1000 = ({ stateW with last_error_alert := 1000 }, []) ∧
    (check_failover cfg0
      ({ stateW with last_pool := some "green", last_failover_alert := 1000 })
      "blue" 1100).2 = [] := by
  refine maintenance_cooldown_advance cfgM cfg0 stateW "blue" "green" "blue" 1000 1100
    rfl rfl (by decide) ?_ (by decide) ?_ ?_ rfl (by decide) ?_
  · norm_num [stateW, stateB, state0, cfgM, cfg0]
  · have hc : (stateW.request_window.filter fun st => decide (500 ≤ st)).length = 3 := rfl
    have hl : stateW.request_window.length = 10 := rfl
    rw [hc, hl]
    norm_num [cfgM, cfg0]
  · norm_num [stateW, stateB, state0, cfgM, cfg0]
  · norm_num [cfgM, cfg0]

theorem check_failover_window_eq (cfg : Config) (s : State) (pool : String) (now : ℚ) :
    (check_failover cfg s pool now).1.request_window = s.request_window := by
  cases h : s.last_pool with
  | none => simp [check_failover, h]
  | some lp =>
    simp only [check_failover, h]
    split_ifs <;> rfl

theorem check_error_rate_window_eq (cfg : Config) (s : State) (now : ℚ) :
    (check_error_rate cfg s now).1.request_window = s.request_window := by
  simp only [check_error_rate]
  split_ifs <;> rfl

/-- C9: a decoded entry whose pool is "", "-", "unknown", null, or absent
(defaulting to "unknown") never updates state: process_log_entry returns
the state unchanged with no outbound POSTs and no error, although the entry
was consumed from the stream. -/
theorem ignored_pool_frame (cfg : Config) (s : State) (now : ℚ)
    (kvs : List (String × JVal))
    (h : poolIgnored (objGet kvs "pool" (JVal.str "unknown")) = true) :
    process_log_entry cfg s (JVal.obj kvs) now = .ok (s, []) := by
  simp [process_log_entry, h]

/-- Witness for C9: pool "-" carrying a 500 status is consumed without
recording the status or touching any timestamp. -/
theorem ignored_pool_frame_witness :
    process_log_entry cfg0 stateB
      (JVal.obj [("pool", JVal.str "-"), ("status", JVal.num 500)]) 5 =
      .ok (stateB, []) :=
  ignored_pool_frame cfg0 stateB 5 _ rfl

/-- C6 (amended): entry processing of a decoded object never raises
provided the pool, upstream_status and request fields are of well-formed
type for the log-line print (pool and upstream_status strings, request a
string or array); the status field of any type degrades to an integer with
fallback 0 and is the value recorded in the window. A non-string tracked
pool or upstream_status, or an unsliceable request, instead raises out of
entry processing (see the counterexample). -/
theorem entry_field_degradation (cfg : Config) (s : State) (now : ℚ)
    (kvs : List (String × JVal))
    (hpool : isStr (objGet kvs "pool" (JVal.str "unknown")) = true)
    (hign : poolIgnored (objGet kvs "pool" (JVal.str "unknown")) = false)
    (hup : isStr (objGet kvs "upstream_status" (JVal.str "-")) = true)
    (hreq : sliceable (objGet kvs "request" (JVal.str "-")) = true) :
    ∃ s2 out, process_log_entry cfg s (JVal.obj kvs) now = .ok (s2, out) ∧
      s2.request_window = dequeAppend cfg.window_size s.request_window
        (coerceStatus (objGet kvs "status" (JVal.num 0))) := by
  cases hP : objGet kvs "pool" (JVal.str "unknown") with
  | str poolStr =>
    rw [hP] at hign
    simp only [process_log_entry, hP, hign, Bool.false_eq_true, if_false, hup, hreq,
      if_true]
    refine ⟨_, _, rfl, ?_⟩
    rw [check_error_rate_window_eq, check_failover_window_eq]
  | null =>
    rw [hP] at hpool
    simp [isStr] at hpool
  | bool b =>
    rw [hP] at hpool
    simp [isStr] at hpool
  | num q =>
    rw [hP] at hpool
    simp [isStr] at hpool
  | arr xs =>
    rw [hP] at hpool
    simp [isStr] at hpool
  | obj kvs2 =>
    rw [hP] at hpool
    simp [isStr] at hpool

/-- Counterexample to C6 as stated: a malformed pool, upstream_status or
request type does not degrade to a default — it raises out of entry
processing (a number pool hits a bad string format code, as does a number
upstream_status, and a number request fails to slice). -/
theorem entry_field_degradation_cex :
    process_log_entry cfg0 state0 (JVal.obj [("pool", JVal.num 7)]) 0 =
      .error PyError.formatCodeError ∧
    process_log_entry cfg0 state0
      (JVal.obj [("pool", JVal.str "blue"), ("upstream_status", JVal.num 5)]) 0 =
      .error PyError.formatCodeError ∧
    process_log_entry cfg0 state0
      (JVal.obj [("pool", JVal.str "blue"), ("request", JVal.num 9)]) 0 =
      .error PyError.sliceTypeError :=
  ⟨rfl, rfl, rfl⟩

/-- Witness for the amended C6: a non-numeric status string degrades to 0
and the entry is processed without error. -/
theorem entry_field_degradation_witness :
    ∃ s2 out, process_log_entry cfg0 state0
      (JVal.obj [("pool", JVal.str "blue"), ("status", JVal.str "oops")]) 7 =
      .ok (s2, out) ∧
      s2.request_window = dequeAppend cfg0.window_size state0.request_window
        (coerceStatus (objGet [("pool", JVal.str "blue"), ("status", JVal.str "oops")]
          "status" (JVal.num 0))) :=
  entry_field_degradation cfg0 state0 7 _ rfl rfl rfl rfl

/-- C7 (amended): a line that fails JSON decoding yields no entry and is
skipped with no error and no state change; a successfully decoded line is
handed to entry processing exactly when its decoded value is Python-truthy,
whether or not that value is a JSON object. -/
theorem line_routing (cfg : Config) (s : State) (line : String) (now : ℚ) :
    (parse_log_line line = none → process_line cfg s line now = .ok (s, [])) ∧
    (∀ v, parse_log_line line = some v → truthy v = false →
      process_line cfg s line now = .ok (s, [])) ∧
    (∀ v, parse_log_line line = some v → truthy v = true →
      process_line cfg s line now = process_log_entry cfg s v now) := by
  refine ⟨?_, ?_, ?_⟩
  · intro h
    simp [process_line, h]
  · intro v h ht
    simp [process_line, h, ht]
  · intro v h ht
    simp [process_line, h, ht]

/-- Counterexample to C7 as stated: the line "3" decodes to the JSON number
3, which is not an object yet is handed to entry processing (where it
raises, so the caller does not skip it without error), while the line for
the empty JSON object decodes to an object yet is skipped as falsy. -/
theorem line_routing_cex :
    parse_log_line "3" = some (JVal.num 3) ∧
    process_line cfg0 state0 "3" 0 = process_log_entry cfg0 state0 (JVal.num 3) 0 ∧
    process_log_entry cfg0 state0 (JVal.num 3) 0 = .error PyError.attributeError ∧
    parse_log_line "\x7b\x7d" = some (JVal.obj []) ∧
    process_line cfg0 state0 "\x7b\x7d" 0 = .ok (state0, []) :=
  ⟨rfl, rfl, rfl, rfl, rfl⟩

/-- Witness for the amended C7: an undecodable line and the falsy null line
are skipped; the truthy non-object line "3" is handed to entry processing. -/
theorem line_routing_witness :
    process_line cfg0 state0 "not json" 0 = .ok (state0, []) ∧
    process_line cfg0 state0 "null" 0 = .ok (state0, []) ∧
    process_line cfg0 stateB "3" 5 = process_log_entry cfg0 stateB (JVal.num 3) 5 := by
  obtain ⟨a, _, _⟩ := line_routing cfg0 state0 "not json" 0
  obtain ⟨_, b, _⟩ := line_routing cfg0 state0 "null" 0
  obtain ⟨_, _, c⟩ := line_routing cfg0 stateB "3" 5
  exact ⟨a rfl, b JVal.null rfl rfl, c (JVal.num 3) rfl rfl⟩

/-- C8: a line that fails structured decoding leaves the rolling window,
last_pool and both cooldown timestamps unchanged, raises nothing and
dispatches nothing, and the follow loop continues exactly as if the line
had not been read. -/
theorem undecodable_line_frame (cfg : Config) (s : State) (line : String) (now : ℚ)
    (rest : List (String × ℚ)) (h : parse_log_line line = none) :
    process_line cfg s line now = .ok (s, []) ∧
    process_lines cfg s ((line, now) :: rest) = process_lines cfg s rest := by
  have h1 : process_line cfg s line now = .ok (s, []) := by
    simp [process_line, h]
  refine ⟨h1, ?_⟩
  simp [process_lines, h1]

/-- Witness for C8: a malformed line read at time 50 in a warm state. -/
theorem undecodable_line_frame_witness :
    process_line cfg0 stateW "not valid json" 50 = .ok (stateW, []) ∧
    process_lines cfg0 stateW [("not valid json", 50)] = process_lines cfg0 stateW [] :=
  undecodable_line_frame cfg0 stateW "not valid json" 50 [] rfl

end Watcher
